import Mathlib

/-
Verification of the distributed stats-collection and row-materialization
engine declared in src/clustering/administration/stats/debug_stats_backend.hpp
(class debug_stats_artificial_table_backend_t).  The repository provides only
the header (method declarations); the method bodies are not under src/, so the
operational definitions below are modelled from the specification, as their
doc comments state.
-/

/-- ServerId: opaque unique identifier of a logical cluster member
(server_id_t in the source header). -/
abbrev ServerId := Nat

/-- EndpointId: identifier of a live transport connection to a member
(peer_id_t in the source header). -/
abbrev EndpointId := Nat

/-- StatsPayload: an open-ended structured document (ql::datum_t in the source
header): nested mapping of names to scalars and sub-documents. -/
inductive Datum where
  | null : Datum
  | bool : Bool → Datum
  | num : Int → Datum
  | str : String → Datum
  | arr : List Datum → Datum
  | obj : List (String × Datum) → Datum

/-- Tests whether a proposed row value is the null datum (a deletion). -/
def Datum.isNull : Datum → Bool
  | .null => true
  | _ => false

/-- Structured error descriptor (admin_err_t in the source header): an error
kind plus a human-readable detail, never a raw transport or parse fault. -/
structure AdminErr where
  kind : String
  detail : String
deriving DecidableEq

/-- Modelled from the spec: the metadata a directory entry advertises
(cluster_directory_metadata_t in the source header, whose definition is not
under src/).  It carries the advertised ServerId and, when the member is
accepting stats requests, the address of its stats-reporting mailbox. -/
structure EndpointMeta where
  serverId : ServerId
  statsMailbox : Option Nat
deriving DecidableEq

/-- DirectorySnapshot: an immutable-at-read-time view of the membership
directory, mapping each live EndpointId to its advertised metadata
(watchable_map_t of peer_id_t to cluster_directory_metadata_t in the header). -/
abbrev DirectorySnapshot := List (EndpointId × EndpointMeta)

/-- Whether some endpoint in the snapshot advertises the given server
identity (the identity is visible in the directory). -/
def advertised (dir : DirectorySnapshot) (sid : ServerId) : Bool :=
  dir.any (fun e => e.2.serverId == sid)

/-- The candidate endpoints for a server identity: endpoints that advertise
this identity and expose a stats-reporting mailbox, in snapshot order. -/
def candidates (dir : DirectorySnapshot) (sid : ServerId) : List EndpointId :=
  (dir.filter (fun e => e.2.serverId == sid && e.2.statsMailbox.isSome)).map
    (fun e => e.1)

/-- The distinct server identities visible in the snapshot, deduplicated even
when several endpoints advertise the same identity. -/
def visibleServers (dir : DirectorySnapshot) : List ServerId :=
  (dir.map (fun e => e.2.serverId)).dedup

/-- Modelled from the spec: the behaviour of one endpoint on the messaging
channel for one request (the mailbox transport is not under src/): it either
replies after some latency, with a payload that parses to a valid stats
document or does not (none, a malformed reply), or it never replies. -/
inductive ReplyBehavior where
  | replies : Nat → Option Datum → ReplyBehavior
  | silent : ReplyBehavior

/-- Modelled from the spec: the external collaborators borrowed for one query:
the directory snapshot, the messaging channel behaviour per endpoint, the
server identity resolver, the fetch deadline and the time at which the
caller-supplied cancellation signal fires, if it ever does. -/
structure Env where
  dir : DirectorySnapshot
  channel : EndpointId → ReplyBehavior
  resolver : ServerId → Option String
  deadline : Nat
  cancelAt : Option Nat

/-- Outcome of one stats fetch: a delivered payload or a typed failure. -/
inductive FetchOutcome where
  | delivered : Datum → FetchOutcome
  | unreachable : FetchOutcome
  | timedOut : FetchOutcome
  | malformed : FetchOutcome
  | cancelled : FetchOutcome

/-- Whether an outcome is one of the per-member failures that a scan encodes
into the member's own row. -/
def FetchOutcome.isFailure : FetchOutcome → Bool
  | .unreachable => true
  | .timedOut => true
  | .malformed => true
  | _ => false

/-- Whether an outcome is the cancellation signal being returned. -/
def FetchOutcome.isCancelled : FetchOutcome → Bool
  | .cancelled => true
  | _ => false

/-- Trace of one fetch invocation: its outcome, the endpoints a request was
issued to (in order), and the time at which the invocation completed. -/
structure FetchTrace where
  outcome : FetchOutcome
  requests : List EndpointId
  completedAt : Nat

/-- Modelled from the spec: interpreting a reply: a reply that parses as a
valid stats document is delivered; one that cannot be interpreted as the
expected document shape is Malformed, never a crash. -/
def parseOutcome : Option Datum → FetchOutcome
  | some p => .delivered p
  | none => .malformed

/-- Modelled from the spec: the race, at one endpoint, between the reply, the
deadline and the cancellation signal.  A reply arriving within the deadline
and no later than the cancellation wins; otherwise a cancellation firing
within the deadline wins; otherwise the deadline fires.  Returns the outcome
and the completion time. -/
def raceFetch (beh : ReplyBehavior) (deadline : Nat) (cancelAt : Option Nat) :
    FetchOutcome × Nat :=
  match beh, cancelAt with
  | .replies t p, none =>
      if t ≤ deadline then (parseOutcome p, t) else (.timedOut, deadline)
  | .replies t p, some c =>
      if t ≤ deadline then
        if t ≤ c then (parseOutcome p, t)
        else if c ≤ deadline then (.cancelled, c) else (.timedOut, deadline)
      else if c ≤ deadline then (.cancelled, c)
      else (.timedOut, deadline)
  | .silent, none => (.timedOut, deadline)
  | .silent, some c =>
      if c ≤ deadline then (.cancelled, c) else (.timedOut, deadline)

/-- Modelled from the spec: the Stats Collector fetch for a single server
identity (the body of debug_stats_artificial_table_backend_t::stats_for_server
is not under src/).  It resolves the identity against the snapshot: zero
candidates give Unreachable immediately with no request issued; otherwise
exactly one request is issued, to the first candidate, racing against the
deadline and the cancellation signal. -/
def fetch (env : Env) (sid : ServerId) : FetchTrace :=
  match candidates env.dir sid with
  | [] => ⟨.unreachable, [], 0⟩
  | e :: _ =>
      let r := raceFetch (env.channel e) env.deadline env.cancelAt
      ⟨r.1, [e], r.2⟩

/-- The stats payload an outcome carries, if any. -/
def fetchStats : FetchOutcome → Option Datum
  | .delivered p => some p
  | _ => none

/-- The structured error descriptor for the Unreachable failure. -/
def unreachableErr : AdminErr :=
  ⟨"Unreachable", "server is known but has no reachable endpoint"⟩

/-- The structured error descriptor for the TimedOut failure. -/
def timedOutErr : AdminErr :=
  ⟨"TimedOut", "request was sent but no reply arrived within the deadline"⟩

/-- The structured error descriptor for the Malformed failure. -/
def malformedErr : AdminErr :=
  ⟨"Malformed", "a reply was received but could not be interpreted"⟩

/-- The structured error descriptor reported when the fetch was cancelled. -/
def cancelledErr : AdminErr :=
  ⟨"Cancelled", "the fetch was cancelled by the caller"⟩

/-- The structured error descriptor an outcome carries, if any. -/
def fetchError : FetchOutcome → Option AdminErr
  | .delivered _ => none
  | .unreachable => some unreachableErr
  | .timedOut => some timedOutErr
  | .malformed => some malformedErr
  | .cancelled => some cancelledErr

/-- Result of stats_for_server: the boolean return value and the two out
parameters; an out parameter equal to none was left unwritten. -/
structure StatsForServerResult where
  ret : Bool
  stats_out : Option Datum
  error_out : Option AdminErr

/-- Modelled from the spec: stats_for_server (declared at lines 47 to 51 of
the source header; its body is not under src/).  On a delivered payload it
returns true and writes stats_out; on any typed failure it returns false,
writes a structured error to error_out and leaves stats_out unwritten. -/
def stats_for_server (env : Env) (sid : ServerId) : StatsForServerResult :=
  match (fetch env sid).outcome with
  | .delivered p => ⟨true, some p, none⟩
  | o => ⟨false, none, fetchError o⟩

/-- One row of the virtual table: primary key, display name, stats payload or
absent, error descriptor or absent. -/
structure Row where
  id : ServerId
  name : String
  stats : Option Datum
  error : Option AdminErr

/-- Display name of a member: resolved through the Server Identity Resolver,
falling back to the raw identifier when resolution fails. -/
def displayName (env : Env) (sid : ServerId) : String :=
  match env.resolver sid with
  | some n => n
  | none => toString sid

/-- Modelled from the spec: the Row Formatter for a single member (the body of
debug_stats_artificial_table_backend_t::format_row, declared at lines 38 to 45
of the source header, is not under src/).  It drives the Stats Collector and
normalizes the outcome into one row: a delivered payload becomes the stats
field, any failure becomes an absent payload plus an error descriptor. -/
def format_row (env : Env) (sid : ServerId) : Row :=
  let r := stats_for_server env sid
  ⟨sid, displayName env sid, r.stats_out, r.error_out⟩

/-- Modelled from the spec: scan mode (list_rows).  It enumerates every
distinct server identity visible in the snapshot and formats one row for each,
independently.  Documented cancellation policy of this model: a member whose
fetch terminated in Cancelled contributes no row (no spurious rows). -/
def list_rows (env : Env) : List Row :=
  ((visibleServers env.dir).filter
      (fun sid => !(fetch env sid).outcome.isCancelled)).map (format_row env)

/-- Result of point mode: a row, NotFound, or the cancellation signal. -/
inductive GetRowResult where
  | notFound : GetRowResult
  | cancelled : GetRowResult
  | row : Row → GetRowResult

/-- Modelled from the spec: point mode (get_row).  An identity absent from the
directory gives NotFound without invoking the collector; a present identity is
formatted into a row, unless the fetch was cancelled, in which case the
cancellation signal is returned without a spurious row. -/
def get_row (env : Env) (sid : ServerId) : GetRowResult :=
  if advertised env.dir sid then
    if (fetch env sid).outcome.isCancelled then .cancelled
    else .row (format_row env sid)
  else .notFound

/-- Result of write_row: the boolean return value, the error out parameter
(none when unwritten), the final contents of the in-out proposed value, the
observable state after the call, and the endpoints a network request was
issued to on the write path. -/
structure WriteResult where
  ret : Bool
  error_out : Option AdminErr
  new_value_out : Datum
  state_out : DirectorySnapshot
  networkRequests : List EndpointId

/-- The structured error returned for a disallowed write. -/
def forbiddenErr : AdminErr :=
  ⟨"Forbidden", "this operation is forbidden for this table"⟩

/-- Modelled from the spec: the Write Gate (the body of
debug_stats_artificial_table_backend_t::write_row, declared at lines 29 to 35
of the source header, is not under src/).  The only permitted write is
deletion as a no-op when the target server is not currently reachable; any
other write, in particular any attempt to set non-null content, is rejected
with a structured Forbidden error, with no side effect, no partial write and
no network call. -/
def write_row (state : DirectorySnapshot) (primary_key : ServerId)
    (pkey_was_autogenerated : Bool) (new_value_inout : Datum) : WriteResult :=
  if new_value_inout.isNull && (candidates state primary_key).isEmpty then
    ⟨true, none, new_value_inout, state, []⟩
  else
    ⟨false, some forbiddenErr, new_value_inout, state, []⟩

/-- Terminal states of the per-fetch state machine. -/
inductive Terminal where
  | delivered : Terminal
  | timedOut : Terminal
  | cancelled : Terminal
deriving DecidableEq

/-- The terminal state of the per-fetch state machine an outcome corresponds
to: a reply that arrived was delivered (whether or not it parsed), and none is
reached when no request was ever sent (zero candidates). -/
def terminalOf : FetchOutcome → Option Terminal
  | .delivered _ => some .delivered
  | .malformed => some .delivered
  | .timedOut => some .timedOut
  | .cancelled => some .cancelled
  | .unreachable => none

/-- Completion time of a whole scan when the per-member fetches are dispatched
concurrently: the maximum of the per-member completion times. -/
def scanLatency (env : Env) : Nat :=
  ((visibleServers env.dir).map (fun sid => (fetch env sid).completedAt)).foldr
    max 0

/-- A row satisfies the schema invariant: exactly one of its stats and error
fields is non-null. -/
def rowWellFormed (r : Row) : Prop :=
  (r.stats.isSome = true ∧ r.error = none) ∨
    (r.stats = none ∧ r.error.isSome = true)

/-- Snapshot advertising server 7 at endpoint 0 with a stats mailbox. -/
def dirOne : DirectorySnapshot := [(0, ⟨7, some 0⟩)]

/-- Snapshot advertising server 7 at endpoint 0 without a stats mailbox. -/
def dirNoMailbox : DirectorySnapshot := [(0, ⟨7, none⟩)]

/-- Environment over dirOne whose endpoint replies quickly and validly. -/
def envHealthy : Env :=
  ⟨dirOne, fun _ => .replies 1 (some (.num 5)), fun _ => none, 10, none⟩

/-- Environment over dirNoMailbox: server 7 is visible but unreachable. -/
def envUnreachable : Env :=
  ⟨dirNoMailbox, fun _ => .silent, fun _ => none, 10, none⟩

/-- Environment over an empty directory snapshot. -/
def envEmpty : Env := ⟨[], fun _ => .silent, fun _ => none, 5, none⟩

/-- First channel used to exhibit fetch independence: endpoint 0 is silent. -/
def chA : EndpointId → ReplyBehavior := fun _ => .silent

/-- Second channel used to exhibit fetch independence: it agrees with chA on
endpoint 0 and differs elsewhere. -/
def chB : EndpointId → ReplyBehavior :=
  fun e => if e == 0 then .silent else .replies 0 (some .null)

/-- A member is visible in the snapshot iff some endpoint advertises it. -/
theorem mem_visibleServers (dir : DirectorySnapshot) (sid : ServerId) :
    sid ∈ visibleServers dir ↔ advertised dir sid = true := by
  simp [visibleServers, advertised, List.mem_dedup, List.mem_map,
    List.any_eq_true, beq_iff_eq]

/-- Every race between reply, deadline and cancellation completes by the
deadline. -/
theorem raceFetch_time_le (beh : ReplyBehavior) (d : Nat) (c : Option Nat) :
    (raceFetch beh d c).2 ≤ d := by
  unfold raceFetch
  cases beh with
  | silent =>
      cases c with
      | none => exact Nat.le_refl d
      | some cv => by_cases h : cv ≤ d <;> simp [h]
  | replies t p =>
      cases c with
      | none => by_cases h : t ≤ d <;> simp [h]
      | some cv =>
          by_cases h1 : t ≤ d
          · by_cases h2 : t ≤ cv
            · simp [h1, h2]
            · by_cases h3 : cv ≤ d <;> simp [h1, h2, h3]
          · by_cases h3 : cv ≤ d <;> simp [h1, h3]

/-- Every race reaches a terminal state of the per-fetch machine. -/
theorem terminalOf_parseOutcome (p : Option Datum) :
    (terminalOf (parseOutcome p)).isSome = true := by
  cases p <;> simp [parseOutcome, terminalOf]

/-- Every race reaches a terminal state of the per-fetch machine. -/
theorem raceFetch_terminal (beh : ReplyBehavior) (d : Nat) (c : Option Nat) :
    (terminalOf (raceFetch beh d c).1).isSome = true := by
  unfold raceFetch
  cases beh with
  | silent =>
      cases c with
      | none => simp [terminalOf]
      | some cv => by_cases h : cv ≤ d <;> simp [h, terminalOf]
  | replies t p =>
      cases c with
      | none =>
          by_cases h : t ≤ d
          · simpa [h] using terminalOf_parseOutcome p
          · simp [h, terminalOf]
      | some cv =>
          by_cases h1 : t ≤ d
          · by_cases h2 : t ≤ cv
            · simpa [h1, h2] using terminalOf_parseOutcome p
            · by_cases h3 : cv ≤ d <;> simp [h1, h2, h3, terminalOf]
          · by_cases h3 : cv ≤ d <;> simp [h1, h3, terminalOf]

/-- A race against a cancellation signal that never fires is never cancelled. -/
theorem raceFetch_no_cancel (beh : ReplyBehavior) (d : Nat) :
    ((raceFetch beh d none).1).isCancelled = false := by
  unfold raceFetch
  cases beh with
  | silent => simp [FetchOutcome.isCancelled]
  | replies t p =>
      by_cases h : t ≤ d
      · cases p <;> simp [h, parseOutcome, FetchOutcome.isCancelled]
      · simp [h, FetchOutcome.isCancelled]

/-- Every fetch invocation completes no later than its deadline. -/
theorem fetch_completedAt_le (env : Env) (sid : ServerId) :
    (fetch env sid).completedAt ≤ env.deadline := by
  unfold fetch
  cases h : candidates env.dir sid with
  | nil => simp
  | cons e rest =>
      simpa using raceFetch_time_le (env.channel e) env.deadline env.cancelAt

/-- A fetch whose cancellation signal never fires is never cancelled. -/
theorem fetch_no_cancel (env : Env) (sid : ServerId)
    (h : env.cancelAt = none) : ((fetch env sid).outcome).isCancelled = false := by
  unfold fetch
  cases hc : candidates env.dir sid with
  | nil => simp [FetchOutcome.isCancelled]
  | cons e rest =>
      simpa [h] using raceFetch_no_cancel (env.channel e) env.deadline

/-- stats_for_server, written through the outcome projections. -/
theorem stats_for_server_eq (env : Env) (sid : ServerId) :
    stats_for_server env sid =
      ⟨(fetchStats (fetch env sid).outcome).isSome,
        fetchStats (fetch env sid).outcome,
        fetchError (fetch env sid).outcome⟩ := by
  unfold stats_for_server
  cases (fetch env sid).outcome <;> simp [fetchStats, fetchError]

/-- format_row, written through the outcome projections. -/
theorem format_row_eq (env : Env) (sid : ServerId) :
    format_row env sid =
      ⟨sid, displayName env sid, fetchStats (fetch env sid).outcome,
        fetchError (fetch env sid).outcome⟩ := by
  unfold format_row
  rw [stats_for_server_eq]

/-- Every formatted row satisfies the schema invariant. -/
theorem format_row_wellFormed (env : Env) (sid : ServerId) :
    rowWellFormed (format_row env sid) := by
  rw [rowWellFormed, format_row_eq]
  cases (fetch env sid).outcome <;> simp [fetchStats, fetchError]

/-- With an unfired cancellation signal, the scan keeps every member. -/
theorem list_rows_no_cancel (env : Env) (h : env.cancelAt = none) :
    list_rows env = (visibleServers env.dir).map (format_row env) := by
  unfold list_rows
  congr 1
  apply List.filter_eq_self.mpr
  intro sid _
  simp [fetch_no_cancel env sid h]

/-- The maximum of a list of naturals bounded by d is bounded by d. -/
theorem foldr_max_le (l : List Nat) (d : Nat) (h : ∀ x ∈ l, x ≤ d) :
    l.foldr max 0 ≤ d := by
  induction l with
  | nil => simp
  | cons x xs ih =>
      simp only [List.foldr_cons]
      exact Nat.max_le.mpr ⟨h x (List.mem_cons_self x xs),
        ih fun y hy => h y (List.mem_cons_of_mem x hy)⟩

/-- Claim C1: every call to write_row whose proposed value is non-null
content for an existing key returns the structured Forbidden error and
mutates no observable state: no partial write, and no network request is
issued on the write path. -/
theorem write_row_nonnull_forbidden (state : DirectorySnapshot)
    (pkey : ServerId) (auto : Bool) (v : Datum)
    (hexist : advertised state pkey = true) (hv : v.isNull = false) :
    (write_row state pkey auto v).ret = false ∧
    (write_row state pkey auto v).error_out = some forbiddenErr ∧
    (write_row state pkey auto v).state_out = state ∧
    (write_row state pkey auto v).networkRequests = [] := by
  unfold write_row
  simp [hv]

/-- Witness for C1: a concrete rejected write over a one-member snapshot. -/
theorem write_row_nonnull_forbidden_witness :
    advertised dirOne 7 = true ∧ (Datum.num 1).isNull = false ∧
    ((write_row dirOne 7 false (Datum.num 1)).ret = false ∧
      (write_row dirOne 7 false (Datum.num 1)).error_out = some forbiddenErr ∧
      (write_row dirOne 7 false (Datum.num 1)).state_out = dirOne ∧
      (write_row dirOne 7 false (Datum.num 1)).networkRequests = []) :=
  ⟨rfl, rfl, write_row_nonnull_forbidden dirOne 7 false (Datum.num 1) rfl rfl⟩

/-- Claim C5: a fetch that resolves to zero candidate endpoints returns
Unreachable immediately with no network request; with one or more candidates
the single request goes to the first candidate only. -/
theorem fetch_first_candidate_only (env : Env) (sid : ServerId) :
    (fetch env sid).requests = (candidates env.dir sid).take 1 ∧
    (candidates env.dir sid = [] →
      (fetch env sid).outcome = .unreachable ∧
      (fetch env sid).requests = [] ∧ (fetch env sid).completedAt = 0) := by
  unfold fetch
  cases h : candidates env.dir sid with
  | nil => simp
  | cons e rest => simp

/-- Witness for C5: over the empty directory the fetch resolves zero
candidates, so it is immediately Unreachable and issues no request. -/
theorem fetch_first_candidate_only_witness :
    candidates envEmpty.dir 3 = [] ∧
    ((fetch envEmpty 3).outcome = .unreachable ∧
      (fetch envEmpty 3).requests = [] ∧ (fetch envEmpty 3).completedAt = 0) :=
  ⟨rfl, (fetch_first_candidate_only envEmpty 3).2 rfl⟩

/-- Claim C9: the boolean returned by stats_for_server is consistent with its
out parameters: true means the stats payload was written and no error was
produced; false means a structured error was written and stats_out was left
unwritten.  Success and failure are mutually exclusive on every path. -/
theorem stats_for_server_consistent (env : Env) (sid : ServerId) :
    ((stats_for_server env sid).ret = true →
      (stats_for_server env sid).stats_out.isSome = true ∧
      (stats_for_server env sid).error_out = none) ∧
    ((stats_for_server env sid).ret = false →
      (stats_for_server env sid).error_out.isSome = true ∧
      (stats_for_server env sid).stats_out = none) := by
  unfold stats_for_server
  cases (fetch env sid).outcome <;>
    simp [fetchError, unreachableErr, timedOutErr, malformedErr, cancelledErr]

/-- Witness for C9: a concrete successful and a concrete failing call. -/
theorem stats_for_server_consistent_witness :
    ((stats_for_server envHealthy 7).ret = true ∧
      ((stats_for_server envHealthy 7).stats_out.isSome = true ∧
        (stats_for_server envHealthy 7).error_out = none)) ∧
    ((stats_for_server envUnreachable 7).ret = false ∧
      ((stats_for_server envUnreachable 7).error_out.isSome = true ∧
        (stats_for_server envUnreachable 7).stats_out = none)) :=
  ⟨⟨rfl, (stats_for_server_consistent envHealthy 7).1 rfl⟩,
    ⟨rfl, (stats_for_server_consistent envUnreachable 7).2 rfl⟩⟩

/-- Claim C10: write_row never rewrites the caller's proposed document when
it rejects the write: on the rejection path the in-out value is unchanged. -/
theorem write_row_rejected_keeps_value (state : DirectorySnapshot)
    (pkey : ServerId) (auto : Bool) (v : Datum)
    (hrej : (write_row state pkey auto v).ret = false) :
    (write_row state pkey auto v).new_value_out = v := by
  unfold write_row
  split <;> rfl

/-- Witness for C10: a concrete rejected write keeps the proposed value. -/
theorem write_row_rejected_keeps_value_witness :
    (write_row dirOne 7 false (Datum.str "x")).ret = false ∧
    (write_row dirOne 7 false (Datum.str "x")).new_value_out = Datum.str "x" :=
  ⟨rfl, write_row_rejected_keeps_value dirOne 7 false (Datum.str "x") rfl⟩

/-- Claim C2: over any directory snapshot, an uncancelled scan produces
exactly one row per distinct visible server identity: identities are
deduplicated across endpoints, and every visible identity gets a row. -/
theorem list_rows_one_row_per_identity (env : Env) (h : env.cancelAt = none)
    (sid : ServerId) :
    ((list_rows env).map Row.id).count sid =
      if advertised env.dir sid = true then 1 else 0 := by
  rw [list_rows_no_cancel env h, List.map_map]
  have hcomp : (Row.id ∘ format_row env) = id := rfl
  rw [hcomp, List.map_id]
  by_cases hadv : advertised env.dir sid = true
  · rw [if_pos hadv]
    exact List.count_eq_one_of_mem (List.nodup_dedup _)
      ((mem_visibleServers env.dir sid).mpr hadv)
  · rw [if_neg hadv, List.count_eq_zero]
    intro hmem
    exact hadv ((mem_visibleServers env.dir sid).mp hmem)

/-- Witness for C2: a concrete uncancelled scan over a one-member snapshot
yields exactly one row whose id is that member. -/
theorem list_rows_one_row_per_identity_witness :
    envHealthy.cancelAt = none ∧ advertised envHealthy.dir 7 = true ∧
    ((list_rows envHealthy).map Row.id).count 7 =
      (if advertised envHealthy.dir 7 = true then 1 else 0) :=
  ⟨rfl, rfl, list_rows_one_row_per_identity envHealthy rfl 7⟩

/-- Claim C3: get_row returns NotFound exactly when the identity is absent
from the snapshot; an identity that is present but has no reachable endpoint
yields a row carrying the Unreachable error descriptor, never NotFound. -/
theorem get_row_notFound_vs_unreachable (env : Env) (sid : ServerId) :
    (get_row env sid = .notFound ↔ advertised env.dir sid = false) ∧
    (advertised env.dir sid = true → candidates env.dir sid = [] →
      get_row env sid = .row (format_row env sid) ∧
      (format_row env sid).stats = none ∧
      (format_row env sid).error = some unreachableErr) := by
  constructor
  · cases hadv : advertised env.dir sid with
    | false => simp [get_row, hadv]
    | true =>
        simp only [get_row, hadv]
        constructor
        · intro hnf
          simp at hnf
          split at hnf <;> cases hnf
        · intro hf
          cases hf
  · intro hadv hcand
    have hfetch : fetch env sid = ⟨.unreachable, [], 0⟩ := by
      unfold fetch
      rw [hcand]
    have hfr : format_row env sid =
        ⟨sid, displayName env sid, none, some unreachableErr⟩ := by
      rw [format_row_eq, hfetch]
      rfl
    refine ⟨?_, ?_, ?_⟩
    · unfold get_row
      rw [hadv, hfetch]
      simp [FetchOutcome.isCancelled]
    · rw [hfr]
    · rw [hfr]

/-- Witness for C3: over a snapshot advertising server 7 with no stats
mailbox, get_row returns a row with the Unreachable descriptor. -/
theorem get_row_notFound_vs_unreachable_witness :
    advertised envUnreachable.dir 7 = true ∧
    candidates envUnreachable.dir 7 = [] ∧
    (get_row envUnreachable 7 = .row (format_row envUnreachable 7) ∧
      (format_row envUnreachable 7).stats = none ∧
      (format_row envUnreachable 7).error = some unreachableErr) :=
  ⟨rfl, rfl, (get_row_notFound_vs_unreachable envUnreachable 7).2 rfl rfl⟩

/-- Claim C6: every row produced by list_rows or get_row satisfies the schema
invariant that exactly one of its stats and error fields is non-null. -/
theorem rows_have_one_of_stats_error (env : Env) (r : Row) :
    (r ∈ list_rows env → rowWellFormed r) ∧
    (∀ sid, get_row env sid = .row r → rowWellFormed r) := by
  constructor
  · intro hmem
    unfold list_rows at hmem
    obtain ⟨sid, hsid, hr⟩ := List.mem_map.mp hmem
    exact hr ▸ format_row_wellFormed env sid
  · intro sid hr
    unfold get_row at hr
    split at hr
    · split at hr
      · cases hr
      · cases hr
        exact format_row_wellFormed env sid
    · cases hr

/-- Witness for C6: the row returned by a concrete healthy point read
satisfies the invariant. -/
theorem rows_have_one_of_stats_error_witness :
    get_row envHealthy 7 = .row (format_row envHealthy 7) ∧
    rowWellFormed (format_row envHealthy 7) :=
  ⟨rfl,
    (rows_have_one_of_stats_error envHealthy (format_row envHealthy 7)).2 7 rfl⟩

/-- A failing outcome is encoded as an absent payload plus a present error
descriptor. -/
theorem failure_encodes (o : FetchOutcome) (h : o.isFailure = true) :
    fetchStats o = none ∧ (fetchError o).isSome = true := by
  cases o <;> simp_all [FetchOutcome.isFailure, fetchStats, fetchError,
    unreachableErr, timedOutErr, malformedErr, cancelledErr]

/-- Claim C4: scan fetches are failure-isolated: a member whose fetch ends in
Unreachable, TimedOut or Malformed gets that outcome encoded into its own row
as an absent payload plus an error descriptor, its row still appears in the
scan, and every other visible member keeps a row: no member's failure aborts
the scan. -/
theorem scan_failure_isolated (env : Env) (sid : ServerId)
    (hnc : env.cancelAt = none) (hadv : advertised env.dir sid = true)
    (hfail : ((fetch env sid).outcome).isFailure = true) :
    ((format_row env sid).stats = none ∧
      (format_row env sid).error = fetchError (fetch env sid).outcome ∧
      ((format_row env sid).error).isSome = true) ∧
    format_row env sid ∈ list_rows env ∧
    (∀ sid2, advertised env.dir sid2 = true →
      ∃ r, r ∈ list_rows env ∧ r.id = sid2) := by
  refine ⟨⟨?_, ?_, ?_⟩, ?_, ?_⟩
  · rw [format_row_eq]
    exact (failure_encodes _ hfail).1
  · rw [format_row_eq]
  · rw [format_row_eq]
    exact (failure_encodes _ hfail).2
  · rw [list_rows_no_cancel env hnc]
    exact List.mem_map_of_mem _ ((mem_visibleServers env.dir sid).mpr hadv)
  · intro sid2 hadv2
    rw [list_rows_no_cancel env hnc]
    exact ⟨format_row env sid2,
      List.mem_map_of_mem _ ((mem_visibleServers env.dir sid2).mpr hadv2), rfl⟩

/-- Witness for C4: a two-member snapshot where server 7 is unreachable while
server 8 stays in the scan. -/
def envMixed : Env :=
  ⟨[(0, ⟨7, none⟩), (1, ⟨8, some 3⟩)],
    fun _ => .replies 1 (some (.num 5)), fun _ => none, 10, none⟩

/-- Witness for C4: in envMixed the unreachable member's failure is encoded
into its own row and the healthy member keeps its row. -/
theorem scan_failure_isolated_witness :
    envMixed.cancelAt = none ∧ advertised envMixed.dir 7 = true ∧
    ((fetch envMixed 7).outcome).isFailure = true ∧
    (((format_row envMixed 7).stats = none ∧
        (format_row envMixed 7).error = fetchError (fetch envMixed 7).outcome ∧
        ((format_row envMixed 7).error).isSome = true) ∧
      format_row envMixed 7 ∈ list_rows envMixed ∧
      (∀ sid2, advertised envMixed.dir sid2 = true →
        ∃ r, r ∈ list_rows envMixed ∧ r.id = sid2)) :=
  ⟨rfl, rfl, rfl, scan_failure_isolated envMixed 7 rfl rfl rfl⟩

/-- Counterexample to claim C7 as stated: a fetch invocation that resolves
zero candidate endpoints (server 0 over the empty directory) sends no request
at all, so "exactly one request is sent" fails for it, and it reaches none of
the terminal states Delivered, TimedOut, Cancelled: it returns Unreachable
without ever entering AwaitingReply. -/
theorem fetch_state_machine_cex :
    (fetch envEmpty 0).requests.length ≠ 1 ∧
    terminalOf (fetch envEmpty 0).outcome = none ∧
    (fetch envEmpty 0).outcome = .unreachable :=
  ⟨by decide, rfl, rfl⟩

/-- Claim C7 (amended): every fetch invocation that resolves at least one
candidate endpoint sends exactly one request, with no retry, and reaches
exactly one of the mutually exclusive terminal states Delivered, TimedOut,
Cancelled; an invocation with zero candidates sends no request and returns
Unreachable immediately; and every invocation completes by its deadline,
never hanging past it. -/
theorem fetch_state_machine (env : Env) (sid : ServerId) :
    (fetch env sid).requests.length ≤ 1 ∧
    (fetch env sid).completedAt ≤ env.deadline ∧
    (candidates env.dir sid ≠ [] →
      (fetch env sid).requests.length = 1 ∧
      (terminalOf (fetch env sid).outcome).isSome = true) ∧
    (candidates env.dir sid = [] →
      (fetch env sid).outcome = .unreachable ∧
      (fetch env sid).requests = []) := by
  refine ⟨?_, fetch_completedAt_le env sid, ?_, ?_⟩
  · unfold fetch
    cases candidates env.dir sid <;> simp
  · intro hne
    unfold fetch
    cases h : candidates env.dir sid with
    | nil => exact absurd h hne
    | cons e rest =>
        refine ⟨by simp, ?_⟩
        simpa using raceFetch_terminal (env.channel e) env.deadline env.cancelAt
  · intro hnil
    unfold fetch
    rw [hnil]
    exact ⟨rfl, rfl⟩

/-- Witness for C7 (amended): a concrete invocation with one candidate sends
exactly one request and reaches a terminal state. -/
theorem fetch_state_machine_witness :
    candidates envHealthy.dir 7 ≠ [] ∧
    ((fetch envHealthy 7).requests.length = 1 ∧
      (terminalOf (fetch envHealthy 7).outcome).isSome = true) :=
  ⟨by decide, (fetch_state_machine envHealthy 7).2.2.1 (by decide)⟩

/-- Claim C8: with per-member fetches dispatched concurrently, modelled as
the scan completing at the maximum of the per-member completion times, the
total scan latency is bounded by the fetch deadline (the maximum of the
per-member deadlines), not by the sum of the fetch latencies; and a slow
member never delays another member's fetch: a fetch depends only on the
channel behaviour at its own candidate endpoints. -/
theorem scan_latency_bounded (env : Env) :
    scanLatency env ≤ env.deadline ∧
    (∀ ch ch2 : EndpointId → ReplyBehavior, ∀ sid : ServerId,
      (∀ e, e ∈ candidates env.dir sid → ch e = ch2 e) →
      fetch ⟨env.dir, ch, env.resolver, env.deadline, env.cancelAt⟩ sid =
        fetch ⟨env.dir, ch2, env.resolver, env.deadline, env.cancelAt⟩ sid) := by
  constructor
  · unfold scanLatency
    apply foldr_max_le
    intro x hx
    obtain ⟨sid, _, hs⟩ := List.mem_map.mp hx
    exact hs ▸ fetch_completedAt_le env sid
  · intro ch ch2 sid hagree
    unfold fetch
    dsimp only
    cases h : candidates env.dir sid with
    | nil => rfl
    | cons e rest =>
        have he : e ∈ candidates env.dir sid := by
          rw [h]
          exact List.mem_cons_self e rest
        dsimp only
        rw [hagree e he]

/-- Witness for C8: the scan over envHealthy finishes within the deadline,
and making every other endpoint behave differently (chB versus chA) leaves
server 7's fetch unchanged. -/
theorem scan_latency_bounded_witness :
    scanLatency envHealthy ≤ envHealthy.deadline ∧
    fetch ⟨envHealthy.dir, chA, envHealthy.resolver, envHealthy.deadline,
        envHealthy.cancelAt⟩ 7 =
      fetch ⟨envHealthy.dir, chB, envHealthy.resolver, envHealthy.deadline,
        envHealthy.cancelAt⟩ 7 :=
  ⟨(scan_latency_bounded envHealthy).1,
    (scan_latency_bounded envHealthy).2 chA chB 7 (fun e he => by
      have he0 : e = 0 := by
        have h : candidates envHealthy.dir 7 = [0] := rfl
        rw [h] at he
        simpa using he
      subst he0
      rfl)⟩
